import Mathlib

/-!
Verification development for the in-page wallet provider
(`BaseProvider` state machine, RPC dispatch escape hatch, mutable-proxy
target-indirection layer, and the `initializeProvider` facade).

The definitions below are shallow embeddings of the TypeScript source:
JavaScript values are modelled by the inductive `JsValue`, the provider's
private plus public state by `ProviderState`, emitted events by lists of
`PEvent`, and a thrown exception by `Except.error`.
-/

/-- A JavaScript runtime value, as far as the provider's code inspects it:
`undefined`, `null`, booleans, numbers, strings, arrays, and plain objects
(an object is an association list of own properties; lookup takes the
first binding). -/
inductive JsValue where
  | undefined
  | null
  | bool (b : Bool)
  | num (n : Int)
  | str (s : String)
  | arr (elems : List JsValue)
  | obj (fields : List (String × JsValue))

/-- Property read on a JavaScript value: `v[key]` for the shapes the
provider's code reads; missing properties and reads on non-objects give
`undefined`. -/
def jsGet (v : JsValue) (key : String) : JsValue :=
  match v with
  | .obj fields =>
    match fields.lookup key with
    | some x => x
    | none => .undefined
  | _ => .undefined

/-- JavaScript truthiness (`Boolean(v)`), restricted to the modelled values. -/
def jsTruthy : JsValue → Bool
  | .undefined => false
  | .null => false
  | .bool b => b
  | .num n => n != 0
  | .str s => s != ""
  | .arr _ => true
  | .obj _ => true

/-- The test `typeof v === 'object'`: true for `null`, arrays and objects. -/
def jsTypeofObject : JsValue → Bool
  | .null => true
  | .arr _ => true
  | .obj _ => true
  | _ => false

/-- The test `Array.isArray(v)`. -/
def jsIsArray : JsValue → Bool
  | .arr _ => true
  | _ => false

/-- The test `v === undefined`. -/
def jsIsUndefined : JsValue → Bool
  | .undefined => true
  | _ => false

/-- The test `v === null`. -/
def jsIsNull : JsValue → Bool
  | .null => true
  | _ => false

/-- The test `v instanceof Object`: true exactly for the non-primitive
modelled values (arrays and objects). -/
def objectLike : JsValue → Bool
  | .arr _ => true
  | .obj _ => true
  | _ => false

/-- Extract the string of a `JsValue.str`, if it is one
(`typeof v === 'string'`). -/
def jsAsStr : JsValue → Option String
  | .str s => some s
  | _ => none

/-- The provider's state: the private `_state` record
(`accounts`, `isConnected`, `isUnlocked`, `initialized`,
`isPermanentlyDisconnected`) together with the two public fields
`chainId` and `selectedAddress`.  `none` models JavaScript `null`. -/
structure ProviderState where
  accounts : Option (List String)
  isConnected : Bool
  isUnlocked : Bool
  initialized : Bool
  isPermanentlyDisconnected : Bool
  chainId : Option String
  selectedAddress : Option String
deriving DecidableEq, Repr

/-- `BaseProvider._defaultState` plus the constructor's
`selectedAddress = null`, `chainId = null`. -/
def defaultProviderState : ProviderState :=
  { accounts := none
    isConnected := false
    isUnlocked := false
    initialized := false
    isPermanentlyDisconnected := false
    chainId := none
    selectedAddress := none }

/-- A public event emitted by the provider (`this.emit(...)`).
`disconnect` carries the `EthereumRpcError` code (1013 recoverable,
1011 permanent); `initializedSignal` is the internal one-shot
ready event. -/
inductive PEvent where
  | connect (chainId : String)
  | disconnect (code : Nat)
  | chainChanged (chainId : String)
  | accountsChanged (accounts : List String)
  | initializedSignal
deriving DecidableEq, Repr

/-- `BaseProvider._handleConnect`: if not currently connected, set
`isConnected` and emit `connect` with the chain id; otherwise no-op. -/
def handleConnect (s : ProviderState) (chainId : String) :
    ProviderState × List PEvent :=
  if !s.isConnected then
    ({ s with isConnected := true }, [.connect chainId])
  else
    (s, [])

/-- `BaseProvider._handleDisconnect`: if connected, or the disconnection is
non-recoverable and not already permanent, clear `isConnected`; in the
non-recoverable branch additionally clear `chainId`, `accounts`,
`selectedAddress`, `isUnlocked` and set `isPermanentlyDisconnected`;
emit `disconnect` with code 1013 (recoverable) or 1011 (permanent). -/
def handleDisconnect (s : ProviderState) (isRecoverable : Bool) :
    ProviderState × List PEvent :=
  if s.isConnected || (!s.isPermanentlyDisconnected && !isRecoverable) then
    let s1 := { s with isConnected := false }
    if isRecoverable then
      (s1, [.disconnect 1013])
    else
      ({ s1 with
          chainId := none
          accounts := none
          selectedAddress := none
          isUnlocked := false
          isPermanentlyDisconnected := true }, [.disconnect 1011])
  else
    (s, [])

/-- Modelled from the spec: `isValidChainId` is imported from `./utils`,
which is not part of the sources; the spec describes it as hex-string
format validation of a hex-prefixed chain id (`Boolean(chainId)` and a
`0x` prefix, stated over the character list).  `none` models a missing /
`undefined` chain id. -/
def isValidChainId : Option String → Bool
  | none => false
  | some c => c != "" && c.data.take 2 == ['0', 'x']

/-- `BaseProvider._handleChainChanged`: log and return when the chain id
fails validation; otherwise call `_handleConnect`, then, when the value
differs from the stored `chainId`, store it and, only when `initialized`,
emit `chainChanged`. -/
def handleChainChanged (s : ProviderState) (chainId : Option String) :
    ProviderState × List PEvent :=
  if !isValidChainId chainId then
    (s, [])
  else
    match chainId with
    | none => (s, [])
    | some c =>
      let p := handleConnect s c
      if some c ≠ p.1.chainId then
        let s2 := { p.1 with chainId := some c }
        if s2.initialized then
          (s2, p.2 ++ [.chainChanged c])
        else
          (s2, p.2)
      else
        p

/-- The sanitization prefix of `BaseProvider._handleAccountsChanged`:
`_accounts` starts as the input, is reset to `[]` when the input is not an
array or contains a non-string element.  The subsequent
`for (const account of accounts)` loop iterates the ORIGINAL input:
a string input iterates its characters (each of type string) and ends with
`_accounts = []`, while any other non-array input is not iterable and the
loop throws a `TypeError`, modelled by `Except.error ()`. -/
def sanitizeAccounts : JsValue → Except Unit (List String)
  | .arr xs =>
    if xs.all fun v => (jsAsStr v).isSome then
      .ok (xs.filterMap jsAsStr)
    else
      .ok []
  | .str _ => .ok []
  | _ => .error ()

/-- JavaScript `x || null` applied to `_accounts[0]` (which is `undefined`
on an empty list): the empty string is falsy and also collapses to `null`. -/
def jsStrOrNull : Option String → Option String
  | none => none
  | some x => if x = "" then none else some x

/-- Strict equality `a === b` between `this.selectedAddress`
(string or `null`) and `_accounts[0]` (string or `undefined`):
`null === undefined` is false, so the two sides are equal only when both
are the same string. -/
def jsStrictEqSelected : Option String → Option String → Bool
  | some a, some b => a == b
  | _, _ => false

set_option linter.unusedVariables false in
/-- The body of `BaseProvider._handleAccountsChanged` after sanitization,
acting on the sanitized account list `_accounts`: when the list differs
from the stored one under deep equality (`dequal`; the stored value may
also be `null`, which differs from every array), store it, recompute
`selectedAddress` as `_accounts[0] || null` behind the
`selectedAddress !== _accounts[0]` guard, and, only when `initialized`,
emit `accountsChanged`.  The `isEthAccounts` flag only affects logging. -/
def handleAccountsChangedCore (s : ProviderState) (acc : List String)
    (isEthAccounts : Bool) : ProviderState × List PEvent :=
  if some acc ≠ s.accounts then
    let s1 := { s with accounts := some acc }
    let s2 :=
      if !jsStrictEqSelected s1.selectedAddress acc.head? then
        { s1 with selectedAddress := jsStrOrNull acc.head? }
      else
        s1
    if s2.initialized then
      (s2, [.accountsChanged acc])
    else
      (s2, [])
  else
    (s, [])

/-- `BaseProvider._handleAccountsChanged` on an arbitrary runtime value:
sanitize (possibly throwing on a non-iterable non-array input), then run
the diff-and-update body. -/
def handleAccountsChanged (s : ProviderState) (accounts : JsValue)
    (isEthAccounts : Bool) : Except Unit (ProviderState × List PEvent) :=
  (sanitizeAccounts accounts).map fun acc =>
    handleAccountsChangedCore s acc isEthAccounts

/-- `BaseProvider._handleUnlockStateChanged`: log and return when
`isUnlocked` is not a boolean (`none` models a missing / non-boolean
value); no-op when the value is unchanged; otherwise store it and forward
`accounts || []` to the accounts-changed handler.  The forwarded value is
a genuine string list (the parameter is typed `string[]`), so the
sanitization passes it through unchanged. -/
def handleUnlockStateChanged (s : ProviderState)
    (accounts : Option (List String)) (isUnlocked : Option Bool) :
    ProviderState × List PEvent :=
  match isUnlocked with
  | none => (s, [])
  | some u =>
    if u ≠ s.isUnlocked then
      let s1 := { s with isUnlocked := u }
      handleAccountsChangedCore s1 (accounts.getD []) false
    else
      (s, [])

/-- The snapshot argument of `BaseProvider._initializeState`. -/
structure InitSnapshot where
  accounts : List String
  chainId : String
  isUnlocked : Bool
  networkVersion : Option String
deriving DecidableEq, Repr

/-- The error thrown by a second call to `BaseProvider._initializeState`
('Provider already initialized.'). -/
inductive InitError where
  | alreadyInitialized
deriving DecidableEq, Repr

/-- `BaseProvider._initializeState`: throw when already initialized;
otherwise, when a snapshot is given, run, in order, `_handleConnect`,
`_handleChainChanged`, `_handleUnlockStateChanged`,
`_handleAccountsChanged`; finally set `initialized` and emit the internal
`_initialized` signal. -/
def initializeState (s : ProviderState) (init : Option InitSnapshot) :
    Except InitError (ProviderState × List PEvent) :=
  if s.initialized then
    .error .alreadyInitialized
  else
    let hydrated : ProviderState × List PEvent :=
      match init with
      | none => (s, [])
      | some snap =>
        let a := handleConnect s snap.chainId
        let b := handleChainChanged a.1 (some snap.chainId)
        let c :=
          handleUnlockStateChanged b.1 (some snap.accounts)
            (some snap.isUnlocked)
        let d := handleAccountsChangedCore c.1 snap.accounts false
        (d.1, a.2 ++ b.2 ++ c.2 ++ d.2)
    .ok ({ hydrated.1 with initialized := true },
         hydrated.2 ++ [.initializedSignal])

/-- One of the two backends that can end up handling a page's RPC call:
this provider (Waymont) or the pre-existing global provider candidate
(MetaMask). -/
inductive Backend where
  | waymont
  | originalCandidate
deriving DecidableEq, Repr

/-- The dispatcher-relevant state of a provider instance:
`originalMetaMask` is the recorded pre-existing provider candidate
(set by `setOriginalMetaMask`, `undefined` before that), and
`proxyDelegate` is the current delegate of the indirection layer installed
at the global slot (retargeted through `setWaymontTargetSetter`'s
`setTarget`). -/
structure DispatchState where
  originalMetaMask : Option Backend
  proxyDelegate : Backend
deriving DecidableEq, Repr

/-- The payload of `_rpcRequest`: a single request carrying a method name,
or a batch array (whose `.method` property is `undefined`). -/
inductive RpcPayload where
  | single (method : String)
  | batch
deriving DecidableEq, Repr

/-- `payload.method` as the escape-hatch test reads it: `undefined`
(`none`) for a batch array. -/
def payloadMethod : RpcPayload → Option String
  | .single m => some m
  | .batch => none

/-- Where `_rpcRequest` sent the call: into this provider's own
`_rpcEngine.handle` (`ownEngine`; the flag records whether the callback
was wrapped with the accounts-changed state update, which happens exactly
for single `eth_accounts` / `eth_requestAccounts` calls), or forwarded
directly through the global indirection proxy to its delegate
(`forwardedTo`). -/
inductive DispatchOutcome where
  | ownEngine (accountsWrapping : Bool)
  | forwardedTo (b : Backend)
deriving DecidableEq, Repr

/-- The non-escape-hatch tail of `_rpcRequest`: a single request gets the
protocol version tag and, for the two account methods, the
accounts-update callback wrapping, then goes to `_rpcEngine.handle`;
a batch goes to `_rpcEngine.handle` unwrapped. -/
def rpcRequestNormal (st : DispatchState) (p : RpcPayload) :
    DispatchState × DispatchOutcome :=
  match p with
  | .single m =>
    (st, .ownEngine (m == "eth_accounts" || m == "eth_requestAccounts"))
  | .batch => (st, .ownEngine false)

/-- `_rpcRequest` with the Waymont escape hatch: when a pre-existing
candidate was recorded, the method is `eth_requestAccounts`, and the
awaited user confirmation selected the other candidate
(`choseThisProvider = false`), retarget the indirection layer's delegate
to the recorded candidate and forward the original call through the
global proxy — which now resolves to that candidate — bypassing the own
engine and the accounts-update wrapping; otherwise proceed normally. -/
def rpcRequest (st : DispatchState) (p : RpcPayload)
    (choseThisProvider : Bool) : DispatchState × DispatchOutcome :=
  match st.originalMetaMask with
  | some om =>
    if payloadMethod p == some "eth_requestAccounts" && !choseThisProvider then
      let st1 := { st with proxyDelegate := om }
      (st1, .forwardedTo st1.proxyDelegate)
    else
      rpcRequestNormal st p
  | none => rpcRequestNormal st p

/-- A heap of mutable-proxy delegate slots: the proxy reference is a fixed
index into the heap, the cell's content is the current `mutableTarget`.
The reference itself is never replaced; only the cell content is. -/
structure ProxyHeap where
  cells : List JsValue

/-- The index identifying one mutable proxy; it is the stable reference
page code holds. -/
abbrev ProxyRef := Nat

/-- `setTarget` of the mutable proxy factory: throw when the new target is
not `instanceof Object`; otherwise overwrite the delegate cell.  The
proxy reference is untouched. -/
def setTarget (w : ProxyHeap) (r : ProxyRef) (t : JsValue) :
    Except String ProxyHeap :=
  if objectLike t then
    .ok ⟨w.cells.set r t⟩
  else
    .error "Target is not an object"

/-- `getTarget` of the mutable proxy factory: the delegate currently
installed behind reference `r`. -/
def currentDelegate (w : ProxyHeap) (r : ProxyRef) : Option JsValue :=
  w.cells[r]?

/-- A trapped `get` operation on the mutable proxy: the forwarding handler
looks up the current `mutableTarget` at invocation time and applies the
operation to it (`Reflect.get(mutableTarget, prop)`); `none` when the
reference is dangling. -/
def trapGet (w : ProxyHeap) (r : ProxyRef) (prop : String) : Option JsValue :=
  (currentDelegate w r).map fun d => jsGet d prop

/-- The error classes of the `request` validator (`ethErrors.rpc.invalidRequest`
with the three distinct messages). -/
inductive RequestError where
  | invalidRequestArgs
  | invalidRequestMethod
  | invalidRequestParams
deriving DecidableEq, Repr

/-- The validation prefix of `BaseProvider.request`, mirroring the three
guards of the source: reject when `!args || typeof args !== 'object' ||
Array.isArray(args)`; reject when `typeof method !== 'string' ||
method.length === 0`; reject when `params !== undefined &&
!Array.isArray(params) && (typeof params !== 'object' || params === null)`.
On success the normalized `{method, params}` pair proceeds to
`_rpcRequest`. -/
def validateRequestArgs (args : JsValue) :
    Except RequestError (String × JsValue) :=
  if !jsTruthy args || !jsTypeofObject args || jsIsArray args then
    .error .invalidRequestArgs
  else
    let method := jsGet args "method"
    let params := jsGet args "params"
    match jsAsStr method with
    | none => .error .invalidRequestMethod
    | some m =>
      if m.length = 0 then
        .error .invalidRequestMethod
      else if !jsIsUndefined params && !jsIsArray params &&
          (!jsTypeofObject params || jsIsNull params) then
        .error .invalidRequestParams
      else
        .ok (m, params)

/-- The test for a non-null object in the JavaScript sense
(`typeof v === 'object' && v !== null`): arrays and plain objects. -/
def isNonNullObject : JsValue → Bool
  | .arr _ => true
  | .obj _ => true
  | _ => false

/-- The validity condition stated from the spec's words, for comparison
with `validateRequestArgs`: the argument is a plain object, its `method`
field is present, a string, and non-empty, and its `params` field is
absent or an array or a non-null object. -/
def specValidRequest (args : JsValue) : Bool :=
  (match args with | .obj _ => true | _ => false) &&
  (match jsAsStr (jsGet args "method") with
   | some m => m.length != 0
   | none => false) &&
  (let p := jsGet args "params"
   jsIsUndefined p || jsIsArray p || isNonNullObject p)

/-- The `deleteProperty` trap installed by `initializeProvider` on the
public facade: `deleteProperty: () => true` — it reports success and does
not touch the target. -/
def inpageDeleteTrap : JsValue → String → Bool × JsValue :=
  fun target _ => (true, target)

/-- The `delete proxy[key]` operation on a JavaScript proxy: when the
handler supplies a `deleteProperty` trap, its result is reported and the
target is whatever the trap left behind; without a trap, the default
behavior removes the own property from the target and reports `true`. -/
def proxyDelete (trap : Option (JsValue → String → Bool × JsValue))
    (target : JsValue) (key : String) : Bool × JsValue :=
  match trap with
  | some t => t target key
  | none =>
    match target with
    | .obj fields => (true, .obj (fields.filter fun kv => kv.1 != key))
    | v => (true, v)

/-- C1, counterexample: the state reached by a non-recoverable disconnect
from a connected provider has `isPermanentlyDisconnected = true`, yet a
subsequent `_handleConnect` call sets `isConnected` back to `true` (the
handler only checks `isConnected`, not the permanent flag), and a
subsequent valid `_handleChainChanged` call restores `chainId`; the claim
that both handlers leave `isConnected` false and do not restore `chainId`
is therefore false at this input. -/
theorem connect_after_permanent_disconnect_reconnects :
    ((handleDisconnect { defaultProviderState with isConnected := true }
        false).1.isPermanentlyDisconnected = true) ∧
    ((handleConnect
        (handleDisconnect { defaultProviderState with isConnected := true }
          false).1 "0x1").1.isConnected = true) ∧
    ((handleChainChanged
        (handleDisconnect { defaultProviderState with isConnected := true }
          false).1 (some "0x1")).1.chainId = some "0x1") := by
  refine ⟨rfl, rfl, ?_⟩
  rfl

/-- Helper: `_handleConnect` only ever touches `isConnected`. -/
theorem handleConnect_preserves (s : ProviderState) (c : String) :
    (handleConnect s c).1.accounts = s.accounts ∧
    (handleConnect s c).1.selectedAddress = s.selectedAddress ∧
    (handleConnect s c).1.isPermanentlyDisconnected =
      s.isPermanentlyDisconnected ∧
    (handleConnect s c).1.chainId = s.chainId ∧
    (handleConnect s c).1.initialized = s.initialized ∧
    (handleConnect s c).1.isUnlocked = s.isUnlocked := by
  unfold handleConnect
  split <;> simp

/-- Helper: `_handleChainChanged` only ever touches `isConnected` and
`chainId`. -/
theorem handleChainChanged_preserves (s : ProviderState) (cc : Option String) :
    (handleChainChanged s cc).1.accounts = s.accounts ∧
    (handleChainChanged s cc).1.selectedAddress = s.selectedAddress ∧
    (handleChainChanged s cc).1.isPermanentlyDisconnected =
      s.isPermanentlyDisconnected := by
  unfold handleChainChanged
  split
  · simp
  · split
    · simp
    · dsimp only
      split
      · split <;>
          simp [(handleConnect_preserves s _).1,
            (handleConnect_preserves s _).2.1,
            (handleConnect_preserves s _).2.2.1]
      · simp [(handleConnect_preserves s _).1,
          (handleConnect_preserves s _).2.1,
          (handleConnect_preserves s _).2.2.1]

/-- C1 (corrected): after a non-recoverable disconnect,
`isPermanentlyDisconnected` stays true across subsequent `_handleConnect`
and `_handleChainChanged` calls and neither handler restores `accounts`
or `selectedAddress`; however the instance is not terminal for
connectivity: a `_handleConnect` call on the (now disconnected) instance
sets `isConnected` back to `true`. -/
theorem handlers_after_permanent_disconnect (s : ProviderState) (c : String)
    (cc : Option String) (hperm : s.isPermanentlyDisconnected = true) :
    ((handleConnect s c).1.isPermanentlyDisconnected = true ∧
     (handleConnect s c).1.accounts = s.accounts ∧
     (handleConnect s c).1.selectedAddress = s.selectedAddress ∧
     (s.isConnected = false → (handleConnect s c).1.isConnected = true)) ∧
    ((handleChainChanged s cc).1.isPermanentlyDisconnected = true ∧
     (handleChainChanged s cc).1.accounts = s.accounts ∧
     (handleChainChanged s cc).1.selectedAddress = s.selectedAddress) := by
  refine ⟨⟨?_, ?_, ?_, ?_⟩, ?_, ?_, ?_⟩
  · rw [(handleConnect_preserves s c).2.2.1, hperm]
  · exact (handleConnect_preserves s c).1
  · exact (handleConnect_preserves s c).2.1
  · intro hdis
    unfold handleConnect
    simp [hdis]
  · rw [(handleChainChanged_preserves s cc).2.2, hperm]
  · exact (handleChainChanged_preserves s cc).1
  · exact (handleChainChanged_preserves s cc).2.1

/-- C1, witness for the corrected claim: instantiated at the concrete
state produced by a non-recoverable disconnect from a connected fresh
provider. -/
theorem handlers_after_permanent_disconnect_witness :
    (((handleConnect
        (handleDisconnect { defaultProviderState with isConnected := true }
          false).1 "0x2").1.isPermanentlyDisconnected = true ∧
      (handleConnect
        (handleDisconnect { defaultProviderState with isConnected := true }
          false).1 "0x2").1.accounts =
        ((handleDisconnect { defaultProviderState with isConnected := true }
          false).1).accounts ∧
      (handleConnect
        (handleDisconnect { defaultProviderState with isConnected := true }
          false).1 "0x2").1.selectedAddress =
        ((handleDisconnect { defaultProviderState with isConnected := true }
          false).1).selectedAddress ∧
      (((handleDisconnect { defaultProviderState with isConnected := true }
          false).1).isConnected = false →
        (handleConnect
          (handleDisconnect { defaultProviderState with isConnected := true }
            false).1 "0x2").1.isConnected = true)) ∧
     ((handleChainChanged
        (handleDisconnect { defaultProviderState with isConnected := true }
          false).1 (some "0x2")).1.isPermanentlyDisconnected = true ∧
      (handleChainChanged
        (handleDisconnect { defaultProviderState with isConnected := true }
          false).1 (some "0x2")).1.accounts =
        ((handleDisconnect { defaultProviderState with isConnected := true }
          false).1).accounts ∧
      (handleChainChanged
        (handleDisconnect { defaultProviderState with isConnected := true }
          false).1 (some "0x2")).1.selectedAddress =
        ((handleDisconnect { defaultProviderState with isConnected := true }
          false).1).selectedAddress)) :=
  handlers_after_permanent_disconnect
    (handleDisconnect { defaultProviderState with isConnected := true }
      false).1 "0x2" (some "0x2") rfl

/-- C2, counterexample: hydrating a fresh provider with
`{accounts: ["0xabc"], chainId: "0x1", isUnlocked: true}` emits
`connect{chainId:"0x1"}` followed only by the internal `_initialized`
signal — the claimed `chainChanged("0x1")` and `accountsChanged(["0xabc"])`
events are absent, because `initialized` is still false while the
hydration handlers run. -/
theorem init_scenario_missing_change_events :
    (initializeState defaultProviderState
        (some ⟨["0xabc"], "0x1", true, none⟩)).map Prod.snd =
      .ok [PEvent.connect "0x1", PEvent.initializedSignal] ∧
    PEvent.chainChanged "0x1" ∉
      [PEvent.connect "0x1", PEvent.initializedSignal] ∧
    PEvent.accountsChanged ["0xabc"] ∉
      [PEvent.connect "0x1", PEvent.initializedSignal] := by
  refine ⟨rfl, by decide, by decide⟩

/-- C2 (corrected): hydrating a fresh provider with
`{accounts: ["0xabc"], chainId: "0x1", isUnlocked: true}` produces exactly
the event sequence `connect{chainId:"0x1"}` then the internal
`_initialized` signal (no `chainChanged` or `accountsChanged`, which are
gated on `initialized`), and leaves `selectedAddress = "0xabc"`,
`chainId = "0x1"`, `accounts = ["0xabc"]`, with the provider connected,
unlocked and initialized. -/
theorem initializeState_scenario1 :
    initializeState defaultProviderState
      (some ⟨["0xabc"], "0x1", true, none⟩) =
    .ok ({ accounts := some ["0xabc"]
           isConnected := true
           isUnlocked := true
           initialized := true
           isPermanentlyDisconnected := false
           chainId := some "0x1"
           selectedAddress := some "0xabc" },
         [.connect "0x1", .initializedSignal]) := by
  rfl

/-- C3 (code bug): delivering the non-array, non-iterable value `null` to
the accounts-changed handler throws a `TypeError` — the
`for (const account of accounts)` loop iterates the original input even
after the explicit non-array branch replaced `_accounts` with `[]` — so
the handler is not exception-free as the claim states. -/
theorem handleAccountsChanged_throws_on_null :
    handleAccountsChanged { defaultProviderState with initialized := true }
      JsValue.null false = .error () := by
  rfl

/-- Helper: the events produced by the accounts-changed body are exactly
one `accountsChanged` carrying the sanitized list when the list differs
from the stored value and `initialized` holds, and nothing otherwise. -/
theorem handleAccountsChangedCore_events (s : ProviderState)
    (l : List String) (p : Bool) :
    (handleAccountsChangedCore s l p).2 =
      if some l ≠ s.accounts ∧ s.initialized = true then
        [PEvent.accountsChanged l]
      else
        [] := by
  unfold handleAccountsChangedCore
  split
  · dsimp only
    split <;> split <;> simp_all
  · simp_all

/-- C4 (confirmed): for any call to the accounts-changed handler whose
sanitization yields the list `l` (every array input does; non-array
iterable inputs yield `[]`), the `accountsChanged` event is emitted iff
`l` differs from the stored accounts value under order-sensitive deep
equality — a stored `null` differs from every list — and the
`initialized` flag is true; in particular nothing is emitted before
initialization. -/
theorem accountsChanged_iff_diff_and_initialized (s : ProviderState)
    (v : JsValue) (p : Bool) (l : List String)
    (r : ProviderState × List PEvent)
    (hsan : sanitizeAccounts v = .ok l)
    (hrun : handleAccountsChanged s v p = .ok r) :
    (∃ l', PEvent.accountsChanged l' ∈ r.2) ↔
      (some l ≠ s.accounts ∧ s.initialized = true) := by
  have hr : r = handleAccountsChangedCore s l p := by
    unfold handleAccountsChanged at hrun
    rw [hsan] at hrun
    simpa [Except.map] using hrun.symm
  subst hr
  rw [handleAccountsChangedCore_events]
  by_cases hc : some l ≠ s.accounts ∧ s.initialized = true
  · simp [hc]
  · simp [hc]

/-- C4, witness: a fresh initialized provider receiving `["0xabc"]` — the
sanitized list differs from the stored `null`, so the event fires. -/
theorem accountsChanged_iff_diff_and_initialized_witness :
    (∃ l', PEvent.accountsChanged l' ∈
        (handleAccountsChangedCore
          { defaultProviderState with initialized := true } ["0xabc"]
          false).2) ↔
      (some ["0xabc"] ≠
        ({ defaultProviderState with
          initialized := true } : ProviderState).accounts ∧
       ({ defaultProviderState with
          initialized := true } : ProviderState).initialized = true) :=
  accountsChanged_iff_diff_and_initialized
    { defaultProviderState with initialized := true }
    (JsValue.arr [JsValue.str "0xabc"]) false ["0xabc"]
    (handleAccountsChangedCore
      { defaultProviderState with initialized := true } ["0xabc"] false)
    rfl rfl

/-- C7 (confirmed): for an object-like delegate `d1`, `setTarget`
succeeds and installs `d1` behind the unchanged proxy reference `r`:
every trapped operation performed afterwards through `r` reads `d1`,
while a trapped operation performed against the pre-assignment heap —
an operation already in flight when the delegate was swapped — still
reads the previous delegate `d0`. -/
theorem setTarget_retargets_traps (w : ProxyHeap) (r : ProxyRef)
    (d0 d1 : JsValue) (hcur : currentDelegate w r = some d0)
    (hobj : objectLike d1 = true) :
    setTarget w r d1 = .ok ⟨w.cells.set r d1⟩ ∧
    currentDelegate ⟨w.cells.set r d1⟩ r = some d1 ∧
    (∀ prop, trapGet ⟨w.cells.set r d1⟩ r prop = some (jsGet d1 prop)) ∧
    (∀ prop, trapGet w r prop = some (jsGet d0 prop)) := by
  have hset : (w.cells.set r d1)[r]? = some d1 := by
    rw [List.getElem?_set_self']
    unfold currentDelegate at hcur
    rw [hcur]
    rfl
  refine ⟨?_, ?_, ?_, ?_⟩
  · unfold setTarget
    rw [hobj]
    rfl
  · exact hset
  · intro prop
    unfold trapGet currentDelegate
    rw [hset]
    rfl
  · intro prop
    unfold trapGet
    rw [hcur]
    rfl

/-- C7, witness: a one-cell heap holding an empty-object delegate,
retargeted to an object carrying a property. -/
theorem setTarget_retargets_traps_witness :
    setTarget ⟨[JsValue.obj []]⟩ 0
        (JsValue.obj [("isMetaMask", JsValue.bool true)]) =
      .ok ⟨[JsValue.obj [("isMetaMask", JsValue.bool true)]]⟩ ∧
    currentDelegate ⟨[JsValue.obj [("isMetaMask", JsValue.bool true)]]⟩ 0 =
      some (JsValue.obj [("isMetaMask", JsValue.bool true)]) ∧
    (∀ prop,
      trapGet ⟨[JsValue.obj [("isMetaMask", JsValue.bool true)]]⟩ 0 prop =
        some (jsGet (JsValue.obj [("isMetaMask", JsValue.bool true)]) prop)) ∧
    (∀ prop, trapGet ⟨[JsValue.obj []]⟩ 0 prop =
      some (jsGet (JsValue.obj []) prop)) :=
  setTarget_retargets_traps ⟨[JsValue.obj []]⟩ 0 (JsValue.obj [])
    (JsValue.obj [("isMetaMask", JsValue.bool true)]) rfl rfl

/-- C5 (confirmed): whenever a call to `_initializeState` returns normally,
any further call on the resulting state throws the
'Provider already initialized.' error, regardless of the arguments of
either call. -/
theorem initializeState_second_call_throws (s : ProviderState)
    (a1 a2 : Option InitSnapshot) (s1 : ProviderState) (evs : List PEvent)
    (h : initializeState s a1 = .ok (s1, evs)) :
    initializeState s1 a2 = .error .alreadyInitialized := by
  have h1 : s1.initialized = true := by
    unfold initializeState at h
    by_cases hs : s.initialized
    · simp [hs] at h
    · simp [hs] at h
      rw [← h.1]
  unfold initializeState
  simp [h1]

/-- C5, witness: a first initialization of the fresh state succeeds, and
the second call throws. -/
theorem initializeState_second_call_throws_witness :
    initializeState { defaultProviderState with initialized := true }
      (some ⟨["0xabc"], "0x1", true, none⟩) = .error .alreadyInitialized :=
  initializeState_second_call_throws defaultProviderState none
    (some ⟨["0xabc"], "0x1", true, none⟩)
    { defaultProviderState with initialized := true }
    [PEvent.initializedSignal] rfl

/-- C6 (confirmed): when a pre-existing provider candidate has been
recorded and an `eth_requestAccounts` call arrives and the user's
confirmation selects the other candidate, the dispatcher retargets the
indirection layer's delegate to that candidate and the outcome is a
direct forward to that candidate alone — not the own engine, so the own
pipeline and its accounts-update wrapping are unused and exactly one
backend receives the call. -/
theorem escape_hatch_retargets_and_forwards (st : DispatchState)
    (om : Backend) (h : st.originalMetaMask = some om) :
    rpcRequest st (.single "eth_requestAccounts") false =
      ({ st with proxyDelegate := om }, .forwardedTo om) := by
  unfold rpcRequest
  rw [h]
  simp [payloadMethod]

/-- C6, witness: concrete dispatch state with a recorded candidate. -/
theorem escape_hatch_retargets_and_forwards_witness :
    rpcRequest ⟨some .originalCandidate, .waymont⟩
      (.single "eth_requestAccounts") false =
      (⟨some .originalCandidate, .originalCandidate⟩,
       .forwardedTo .originalCandidate) :=
  escape_hatch_retargets_and_forwards ⟨some .originalCandidate, .waymont⟩
    .originalCandidate rfl

/-- C8 (confirmed): a chain id that fails the hex-string format validation
leaves the entire provider state — in particular the stored `chainId` —
unchanged and emits no event. -/
theorem handleChainChanged_invalid_noop (s : ProviderState)
    (c : Option String) (h : isValidChainId c = false) :
    handleChainChanged s c = (s, []) := by
  unfold handleChainChanged
  simp [h]

/-- C8, witness: the malformed chain id "nope" fails validation and the
handler is a no-op on the fresh state. -/
theorem handleChainChanged_invalid_noop_witness :
    isValidChainId (some "nope") = false ∧
    handleChainChanged defaultProviderState (some "nope") =
      (defaultProviderState, []) :=
  ⟨by decide, handleChainChanged_invalid_noop defaultProviderState
    (some "nope") (by decide)⟩

/-- C9 (confirmed): the validation prefix of `request` rejects exactly the
inputs the spec describes — not a plain object, or `method` missing /
non-string / empty, or `params` present but neither an array nor a
non-null object — and on acceptance the normalized pair handed to the
dispatcher is exactly the argument's `method` string and `params` value;
the validator reads the argument and touches no provider state. -/
theorem request_validation_matches_spec (args : JsValue) :
    ((validateRequestArgs args).isOk = specValidRequest args) ∧
    (∀ m p, validateRequestArgs args = .ok (m, p) →
      jsGet args "method" = .str m ∧ jsGet args "params" = p) := by
  cases args with
  | undefined =>
    refine ⟨by simp [validateRequestArgs, specValidRequest, jsTruthy,
      jsTypeofObject, jsIsArray, Except.isOk, Except.toBool], ?_⟩
    intro m p h
    simp [validateRequestArgs, jsTruthy, jsTypeofObject, jsIsArray] at h
  | null =>
    refine ⟨by simp [validateRequestArgs, specValidRequest, jsTruthy,
      jsTypeofObject, jsIsArray, Except.isOk, Except.toBool], ?_⟩
    intro m p h
    simp [validateRequestArgs, jsTruthy, jsTypeofObject, jsIsArray] at h
  | bool b =>
    refine ⟨by simp [validateRequestArgs, specValidRequest, jsTruthy,
      jsTypeofObject, jsIsArray, Except.isOk, Except.toBool], ?_⟩
    intro m p h
    simp [validateRequestArgs, jsTruthy, jsTypeofObject, jsIsArray] at h
  | num n =>
    refine ⟨by simp [validateRequestArgs, specValidRequest, jsTruthy,
      jsTypeofObject, jsIsArray, Except.isOk, Except.toBool], ?_⟩
    intro m p h
    simp [validateRequestArgs, jsTruthy, jsTypeofObject, jsIsArray] at h
  | str s =>
    refine ⟨by simp [validateRequestArgs, specValidRequest, jsTruthy,
      jsTypeofObject, jsIsArray, Except.isOk, Except.toBool], ?_⟩
    intro m p h
    simp [validateRequestArgs, jsTruthy, jsTypeofObject, jsIsArray] at h
  | arr xs =>
    refine ⟨by simp [validateRequestArgs, specValidRequest, jsTruthy,
      jsTypeofObject, jsIsArray, Except.isOk, Except.toBool], ?_⟩
    intro m p h
    simp [validateRequestArgs, jsTruthy, jsTypeofObject, jsIsArray] at h
  | obj fields =>
    have hV : validateRequestArgs (JsValue.obj fields) =
        (match jsAsStr (jsGet (JsValue.obj fields) "method") with
         | none => .error .invalidRequestMethod
         | some m =>
           if m.length = 0 then
             .error .invalidRequestMethod
           else if !jsIsUndefined (jsGet (JsValue.obj fields) "params") &&
               !jsIsArray (jsGet (JsValue.obj fields) "params") &&
               (!jsTypeofObject (jsGet (JsValue.obj fields) "params") ||
                 jsIsNull (jsGet (JsValue.obj fields) "params")) then
             .error .invalidRequestParams
           else
             .ok (m, jsGet (JsValue.obj fields) "params")) := rfl
    constructor
    · rw [hV]
      rcases hmv : jsGet (JsValue.obj fields) "method"
        with _ | _ | b | n | ms | mxs | mfs <;>
        simp [specValidRequest, jsAsStr, hmv, Except.isOk, Except.toBool]
      by_cases hm : ms.length = 0
      · simp [hm, Except.isOk, Except.toBool]
      · rcases hpv : jsGet (JsValue.obj fields) "params"
          with _ | _ | pb | pn | ps | pxs | pfs <;>
          simp [hm, hpv, jsIsUndefined, jsIsArray, jsTypeofObject,
            jsIsNull, isNonNullObject, Except.isOk, Except.toBool]
    · intro m p h
      rw [hV] at h
      rcases hmv : jsGet (JsValue.obj fields) "method"
        with _ | _ | b | n | ms | mxs | mfs <;>
        simp [jsAsStr, hmv] at h
      split at h
      · exact absurd h (by simp)
      · split at h
        · exact absurd h (by simp)
        · simp only [Except.ok.injEq, Prod.mk.injEq] at h
          exact ⟨by rw [h.1], h.2⟩

/-- C9, witness: the well-formed request
`{method: "eth_accounts", params: []}` is accepted, matches the spec's
validity condition, and normalizes to its own `method` and `params`. -/
theorem request_validation_matches_spec_witness :
    ((validateRequestArgs (JsValue.obj
        [("method", JsValue.str "eth_accounts"),
         ("params", JsValue.arr [])])).isOk =
      specValidRequest (JsValue.obj
        [("method", JsValue.str "eth_accounts"),
         ("params", JsValue.arr [])])) ∧
    (jsGet (JsValue.obj
        [("method", JsValue.str "eth_accounts"),
         ("params", JsValue.arr [])]) "method" =
        JsValue.str "eth_accounts" ∧
     jsGet (JsValue.obj
        [("method", JsValue.str "eth_accounts"),
         ("params", JsValue.arr [])]) "params" = JsValue.arr []) :=
  ⟨(request_validation_matches_spec (JsValue.obj
      [("method", JsValue.str "eth_accounts"),
       ("params", JsValue.arr [])])).1,
   (request_validation_matches_spec (JsValue.obj
      [("method", JsValue.str "eth_accounts"),
       ("params", JsValue.arr [])])).2 "eth_accounts" (JsValue.arr [])
     rfl⟩

/-- C10 (confirmed): on the facade returned by `initializeProvider`, the
delete operation always reports success while leaving the underlying
provider object — every one of its properties — unchanged. -/
theorem facade_delete_silent_noop (target : JsValue) (key : String) :
    (proxyDelete (some inpageDeleteTrap) target key).1 = true ∧
    (proxyDelete (some inpageDeleteTrap) target key).2 = target ∧
    (∀ prop, jsGet (proxyDelete (some inpageDeleteTrap) target key).2 prop =
      jsGet target prop) :=
  ⟨rfl, rfl, fun _ => rfl⟩
